import Mathlib

/-
Verification of the four-function calculator in
src/Chapter1/Exercises/Calculator/calculator.cpp.

The program reads two integers and an operator character, dispatches on the
operator through a switch statement, and prints the result.  The switch as
written has no break statements, so control falls through every case below
the matching one, and the else branch of the division case assigns
multiply(a,b) rather than divide(a,b).  The embedding below reproduces that
control flow faithfully and also records which of the four arithmetic
helper functions main invokes, in order.
-/

namespace Calculator

/-- Embeds `int add(int a, int b){ return a+b; }`. -/
def add (a b : Int) : Int := a + b

/-- Embeds `int subtract(int a, int b){ return a-b; }`. -/
def subtract (a b : Int) : Int := a - b

/-- Embeds `int multiply(int a, int b){ return a*b; }`. -/
def multiply (a b : Int) : Int := a * b

/-- Embeds `int divide(int a, int b){ return a/b; }`; C++ integer division
truncates toward zero, which is Int.tdiv. -/
def divide (a b : Int) : Int := Int.tdiv a b

/-- The four helper functions main can call, used to trace invocations. -/
inductive CalledFn where
  | addFn
  | subtractFn
  | multiplyFn
  | divideFn
deriving DecidableEq

/-- How a run of main ends: a normal return 0 after printing `result`
(`none` models the local variable still being uninitialized when printed),
or the early `return -1` after printing the divide-by-zero diagnostic. -/
inductive Exit where
  | normal (result : Option Int)
  | divByZeroExit
deriving DecidableEq

/-- Embeds the body of main after the three reads: the switch on
`operation` with its fall-through (no case has a break), followed by
printing `result`.  Each case body is guarded by whether control has
entered the switch at or above that case.  Returns the exit together with
the list of helper functions called, in call order. -/
def calculatorMain (a b : Int) (operation : Char) : Exit × List CalledFn :=
  let result : Option Int := none
  let calls : List CalledFn := []
  let entered := operation == '+'
  let result := if entered then some (add a b) else result
  let calls := if entered then calls ++ [CalledFn.addFn] else calls
  let entered := entered || operation == '-'
  let result := if entered then some (subtract a b) else result
  let calls := if entered then calls ++ [CalledFn.subtractFn] else calls
  let entered := entered || operation == '*'
  let result := if entered then some (multiply a b) else result
  let calls := if entered then calls ++ [CalledFn.multiplyFn] else calls
  let entered := entered || operation == '/'
  if entered then
    if b = 0 then
      (Exit.divByZeroExit, calls)
    else
      (Exit.normal (some (multiply a b)), calls ++ [CalledFn.multiplyFn])
  else
    (Exit.normal result, calls)

/-- What the program writes to standard output (std::endl appends a
newline); `none` when it prints an uninitialized value, whose bytes are
indeterminate. -/
def outputOf : Exit → Option String
  | Exit.normal (some n) => some (toString n ++ "\n")
  | Exit.normal none => none
  | Exit.divByZeroExit => some ("Cannot divide by 0!" ++ "\n")

/-- The process exit status: 0 from the final `return 0;`, -1 from the
early `return -1;` in the divide-by-zero branch. -/
def exitCodeOf : Exit → Int
  | Exit.normal _ => 0
  | Exit.divByZeroExit => -1

end Calculator

namespace Calculator

/-- Claim C1: the spec says the switch matches the operator character and
invokes exactly the corresponding arithmetic operation and no other.  The
code refutes this: with A = 2, B = 3 and operator plus, the missing break
statements make control fall through subtract, multiply and the division
case, so main calls add, subtract and multiply twice, and prints 6 = 2 * 3
instead of 2 + 3. -/
theorem plus_case_falls_through_2_3 :
    calculatorMain 2 3 '+' =
      (Exit.normal (some 6),
        [CalledFn.addFn, CalledFn.subtractFn, CalledFn.multiplyFn,
          CalledFn.multiplyFn]) := by
  decide

/-- Claim C2: the spec says the diagnostic appears exactly when the
operator is the division sign and B is zero.  The code refutes this: with
A = 6, B = 0 and operator plus, fall-through reaches the zero check of the
division case, so the program prints the diagnostic and exits with -1
instead of printing 6 and exiting with 0. -/
theorem plus_with_zero_b_hits_divide_guard :
    outputOf (calculatorMain 6 0 '+').1 = some ("Cannot divide by 0!" ++ "\n") ∧
      exitCodeOf (calculatorMain 6 0 '+').1 = -1 ∧
      (calculatorMain 6 0 '+').2 =
        [CalledFn.addFn, CalledFn.subtractFn, CalledFn.multiplyFn] := by
  decide

/-- Claim C3: for all integers a and b with b nonzero, add returns a + b,
subtract returns a - b, multiply returns a * b, and divide returns the
quotient truncated toward zero, that is, the sign of a times the sign of b
times the floor of the quotient of absolute values. -/
theorem arithmetic_helpers_correct (a b : Int) (h : b ≠ 0) :
    add a b = a + b ∧ subtract a b = a - b ∧ multiply a b = a * b ∧
      divide a b = a.sign * b.sign * ((a.natAbs / b.natAbs : Nat) : Int) := by
  refine ⟨rfl, rfl, rfl, ?_⟩
  rcases a with m | m <;> rcases b with n | n
  · rcases n with _ | n
    · exact absurd rfl h
    rcases m with _ | m <;> simp [divide, Int.tdiv, Int.sign, Int.natAbs]
  · rcases m with _ | m <;> simp [divide, Int.tdiv, Int.sign, Int.natAbs]
  · rcases n with _ | n
    · exact absurd rfl h
    simp [divide, Int.tdiv, Int.sign, Int.natAbs]
  · simp [divide, Int.tdiv, Int.sign, Int.natAbs]

/-- Witness for claim C3 at a = -7, b = 2: the hypothesis b nonzero holds
and the four equations evaluate there (divide gives -3, truncation toward
zero). -/
theorem arithmetic_helpers_correct_witness :
    (2 : Int) ≠ 0 ∧
      (add (-7) 2 = (-7) + 2 ∧ subtract (-7) 2 = (-7) - 2 ∧
        multiply (-7) 2 = (-7) * 2 ∧
        divide (-7) 2 =
          Int.sign (-7) * Int.sign 2 *
            ((Int.natAbs (-7) / Int.natAbs 2 : Nat) : Int)) :=
  ⟨by decide, arithmetic_helpers_correct (-7) 2 (by decide)⟩

/-- Claim C4: the spec scenario says input 6 3 plus prints 9.  The code
refutes this: fall-through makes the division case assign multiply(6,3),
so the program prints 18 followed by a newline and exits with 0. -/
theorem input_6_3_plus_prints_18 :
    outputOf (calculatorMain 6 3 '+').1 = some ("18" ++ "\n") ∧
      exitCodeOf (calculatorMain 6 3 '+').1 = 0 := by
  decide

/-- Claim C5: the spec scenario says input 6 3 with the division operator
prints 2.  The code refutes this: the else branch of the division case
assigns multiply(6,3) rather than divide(6,3), so the program prints 18
followed by a newline and the only helper called is multiply. -/
theorem input_6_3_div_prints_18 :
    outputOf (calculatorMain 6 3 '/').1 = some ("18" ++ "\n") ∧
      (calculatorMain 6 3 '/').2 = [CalledFn.multiplyFn] := by
  decide

/-- Claim C6: on input A = 6, B = 3, operator star, the program prints 18
followed by a newline and exits with 0. -/
theorem input_6_3_times_prints_18 :
    outputOf (calculatorMain 6 3 '*').1 = some ("18" ++ "\n") ∧
      exitCodeOf (calculatorMain 6 3 '*').1 = 0 := by
  decide

/-- Claim C7: on input A = 6, B = 0, operator slash, the program prints
the diagnostic followed by a newline and exits with the nonzero status
-1. -/
theorem input_6_0_div_prints_diagnostic :
    outputOf (calculatorMain 6 0 '/').1 = some ("Cannot divide by 0!" ++ "\n") ∧
      exitCodeOf (calculatorMain 6 0 '/').1 = -1 ∧
      exitCodeOf (calculatorMain 6 0 '/').1 ≠ 0 := by
  decide

/-- Claim C8: for every operator character other than the four recognized
ones, no switch case executes: main calls no helper function and prints
the uninitialized local result, modelled by the none branch of the
embedding. -/
theorem unrecognized_op_prints_uninitialized (a b : Int) (op : Char)
    (h1 : op ≠ '+') (h2 : op ≠ '-') (h3 : op ≠ '*') (h4 : op ≠ '/') :
    calculatorMain a b op = (Exit.normal none, []) := by
  simp [calculatorMain, h1, h2, h3, h4]

/-- Witness for claim C8 at a = 1, b = 2 and the operator question mark:
the four inequalities hold and the run prints the uninitialized result with
no helper called. -/
theorem unrecognized_op_prints_uninitialized_witness :
    ('?' ≠ '+' ∧ '?' ≠ '-' ∧ '?' ≠ '*' ∧ '?' ≠ '/') ∧
      calculatorMain 1 2 '?' = (Exit.normal none, []) :=
  ⟨⟨by decide, by decide, by decide, by decide⟩,
    unrecognized_op_prints_uninitialized 1 2 '?' (by decide) (by decide)
      (by decide) (by decide)⟩

/-- Claim C9: for every A and B with B = 0 and every recognized operator,
not only the division sign, the program prints the divide-by-zero
diagnostic and returns exit status -1, because every case falls through
into the zero check of the division case. -/
theorem any_recognized_op_with_zero_b_divide_error (a b : Int) (op : Char)
    (hop : op = '+' ∨ op = '-' ∨ op = '*' ∨ op = '/') (hb : b = 0) :
    (calculatorMain a b op).1 = Exit.divByZeroExit ∧
      outputOf (calculatorMain a b op).1 = some ("Cannot divide by 0!" ++ "\n") ∧
      exitCodeOf (calculatorMain a b op).1 = -1 := by
  subst hb
  rcases hop with h | h | h | h <;> subst h <;>
    simp [calculatorMain, outputOf, exitCodeOf]

/-- Witness for claim C9 at A = 5, B = 0 and the minus operator: the
hypotheses hold and the run ends in the divide-by-zero exit with status
-1. -/
theorem any_recognized_op_with_zero_b_divide_error_witness :
    ('-' = '+' ∨ '-' = '-' ∨ '-' = '*' ∨ '-' = '/') ∧ (0 : Int) = 0 ∧
      ((calculatorMain 5 0 '-').1 = Exit.divByZeroExit ∧
        outputOf (calculatorMain 5 0 '-').1 = some ("Cannot divide by 0!" ++ "\n") ∧
        exitCodeOf (calculatorMain 5 0 '-').1 = -1) :=
  ⟨by decide, rfl,
    any_recognized_op_with_zero_b_divide_error 5 0 '-' (by decide) rfl⟩

/-- Claim C10: for every A and B with B nonzero and every recognized
operator, the integer printed equals A * B, because fall-through makes the
multiply assignment in the division case execute last; and the divide
helper is never called from main. -/
theorem recognized_op_nonzero_b_prints_product (a b : Int) (op : Char)
    (hop : op = '+' ∨ op = '-' ∨ op = '*' ∨ op = '/') (hb : b ≠ 0) :
    (calculatorMain a b op).1 = Exit.normal (some (a * b)) ∧
      CalledFn.divideFn ∉ (calculatorMain a b op).2 := by
  rcases hop with h | h | h | h <;> subst h <;>
    simp [calculatorMain, multiply, hb]

/-- Witness for claim C10 at A = 7, B = 4 and the minus operator: the
hypotheses hold, the program prints 28 = 7 * 4, and divide is not among
the called helpers. -/
theorem recognized_op_nonzero_b_prints_product_witness :
    ('-' = '+' ∨ '-' = '-' ∨ '-' = '*' ∨ '-' = '/') ∧ (4 : Int) ≠ 0 ∧
      ((calculatorMain 7 4 '-').1 = Exit.normal (some (7 * 4)) ∧
        CalledFn.divideFn ∉ (calculatorMain 7 4 '-').2) :=
  ⟨by decide, by decide,
    recognized_op_nonzero_b_prints_product 7 4 '-' (by decide) (by decide)⟩

end Calculator
